import Mathlib

/-!
# Verification of the BAZINGA backend core (src/backend/index.js)

A shallow embedding of the OTP store, the four HTTP endpoint handlers
(`/api/send-otp`, `/api/verify-otp`, `/api/create-order`,
`/api/verify-payment`) and the HMAC-SHA256 signature check, together with
theorems settling the specification claims about them.

Bytes are `Nat` values below 256, 32-bit words are `Nat` values reduced
modulo `2^32`; strings are UTF-8 encoded before hashing, as node's
`crypto.createHmac(...).update(string)` does.
-/

namespace Bazinga

/-! ## SHA-256 (FIPS 180-4) over lists of byte values -/

/-- Truncation to a 32-bit word. -/
def w32 (n : Nat) : Nat := n % 4294967296

/-- Right rotation of a 32-bit word. -/
def rotr32 (n x : Nat) : Nat := w32 ((x >>> n) ||| (x <<< (32 - n)))

def bsig0 (x : Nat) : Nat := (rotr32 2 x) ^^^ (rotr32 13 x) ^^^ (rotr32 22 x)

def bsig1 (x : Nat) : Nat := (rotr32 6 x) ^^^ (rotr32 11 x) ^^^ (rotr32 25 x)

def ssig0 (x : Nat) : Nat := (rotr32 7 x) ^^^ (rotr32 18 x) ^^^ (x >>> 3)

def ssig1 (x : Nat) : Nat := (rotr32 17 x) ^^^ (rotr32 19 x) ^^^ (x >>> 10)

/-- The choice function `Ch(x,y,z)`; the 32-bit complement of `x` is `x ^^^ 0xFFFFFFFF`. -/
def chf (x y z : Nat) : Nat := (x &&& y) ^^^ ((x ^^^ 4294967295) &&& z)

def majf (x y z : Nat) : Nat := (x &&& y) ^^^ (x &&& z) ^^^ (y &&& z)

/-- The 64 SHA-256 round constants (FIPS 180-4 section 4.2.2, written in
decimal). -/
def sha256K : List Nat :=
  [1116352408, 1899447441, 3049323471, 3921009573, 961987163, 1508970993,
   2453635748, 2870763221, 3624381080, 310598401, 607225278, 1426881987,
   1925078388, 2162078206, 2614888103, 3248222580, 3835390401, 4022224774,
   264347078, 604807628, 770255983, 1249150122, 1555081692, 1996064986,
   2554220882, 2821834349, 2952996808, 3210313671, 3336571891, 3584528711,
   113926993, 338241895, 666307205, 773529912, 1294757372, 1396182291,
   1695183700, 1986661051, 2177026350, 2456956037, 2730485921, 2820302411,
   3259730800, 3345764771, 3516065817, 3600352804, 4094571909, 275423344,
   430227734, 506948616, 659060556, 883997877, 958139571, 1322822218,
   1537002063, 1747873779, 1955562222, 2024104815, 2227730452, 2361852424,
   2428436474, 2756734187, 3204031479, 3329325298]

/-- The `k` big-endian bytes of `n`. -/
def beBytes : Nat → Nat → List Nat
  | 0, _ => []
  | k + 1, n => beBytes k (n / 256) ++ [n % 256]

/-- SHA-256 padding: append `0x80`, zeros to 56 mod 64, then the 64-bit
big-endian bit length. The zero count is `(55 - (len + 1) + 56) mod 64`,
written as `(119 - len % 64) % 64` so the truncated `Nat` subtraction never
clips (119 - x is exact for every x below 64): for `len % 64` in 56..63 this
yields 63..56 zeros, wrapping into a second block. -/
def padMessage (msg : List Nat) : List Nat :=
  let len := msg.length
  msg ++ [128] ++ List.replicate ((119 - len % 64) % 64) 0 ++ beBytes 8 (8 * len)

/-- Big-endian 32-bit words from a list of bytes. -/
def bytesToWords : List Nat → List Nat
  | a :: b :: c :: d :: rest => (((a * 256 + b) * 256 + c) * 256 + d) :: bytesToWords rest
  | _ => []

/-- Split a byte list into 64-byte blocks; fuel-driven structural recursion
(the fuel `bs.length` always suffices). -/
def toBlocksF : Nat → List Nat → List (List Nat)
  | 0, _ => []
  | _, [] => []
  | fuel + 1, b :: rest => ((b :: rest).take 64) :: toBlocksF fuel (rest.drop 63)

/-- Split a byte list into 64-byte blocks. -/
def toBlocks (bs : List Nat) : List (List Nat) := toBlocksF bs.length bs

/-- Extend the 16 message-schedule words by `n` more words. -/
def extendLoop : Nat → List Nat → List Nat
  | 0, acc => acc
  | n + 1, acc =>
      let i := acc.length
      let w := w32 (ssig1 (acc.getD (i - 2) 0) + acc.getD (i - 7) 0 +
                    ssig0 (acc.getD (i - 15) 0) + acc.getD (i - 16) 0)
      extendLoop n (acc ++ [w])

/-- The eight working variables of the compression function. -/
structure Hash8 where
  a : Nat
  b : Nat
  c : Nat
  d : Nat
  e : Nat
  f : Nat
  g : Nat
  h : Nat
  deriving Repr, DecidableEq

/-- Initial SHA-256 hash value (FIPS 180-4 section 5.3.3, in decimal). -/
def sha256Init : Hash8 :=
  ⟨1779033703, 3144134277, 1013904242, 2773480762,
   1359893119, 2600822924, 528734635, 1541459225⟩

/-- One round of the SHA-256 compression function. -/
def compressStep (st : Hash8) (kw : Nat × Nat) : Hash8 :=
  let t1 := w32 (st.h + bsig1 st.e + chf st.e st.f st.g + kw.1 + kw.2)
  let t2 := w32 (bsig0 st.a + majf st.a st.b st.c)
  ⟨w32 (t1 + t2), st.a, st.b, st.c, w32 (st.d + t1), st.e, st.f, st.g⟩

/-- Process one 64-byte block. -/
def compressBlock (st : Hash8) (block : List Nat) : Hash8 :=
  let ws := extendLoop 48 (bytesToWords block)
  let fin := (sha256K.zip ws).foldl compressStep st
  ⟨w32 (st.a + fin.a), w32 (st.b + fin.b), w32 (st.c + fin.c), w32 (st.d + fin.d),
   w32 (st.e + fin.e), w32 (st.f + fin.f), w32 (st.g + fin.g), w32 (st.h + fin.h)⟩

/-- SHA-256 digest (32 bytes) of a byte list. -/
def sha256Bytes (msg : List Nat) : List Nat :=
  let fin := (toBlocks (padMessage msg)).foldl compressBlock sha256Init
  beBytes 4 fin.a ++ beBytes 4 fin.b ++ beBytes 4 fin.c ++ beBytes 4 fin.d ++
  beBytes 4 fin.e ++ beBytes 4 fin.f ++ beBytes 4 fin.g ++ beBytes 4 fin.h

/-- Lower-case hex digit for a value below 16. -/
def hexDigit (n : Nat) : Char := if n < 10 then Char.ofNat (48 + n) else Char.ofNat (87 + n)

/-- Lower-case hex encoding of a byte list. -/
def bytesToHex (bs : List Nat) : String :=
  String.mk ((bs.map fun b => [hexDigit (b / 16), hexDigit (b % 16)]).flatten)

/-- UTF-8 encoding of a single code point. -/
def utf8Bytes (c : Nat) : List Nat :=
  if c < 128 then [c]
  else if c < 2048 then [192 + c / 64, 128 + c % 64]
  else if c < 65536 then [224 + c / 4096, 128 + (c / 64) % 64, 128 + c % 64]
  else [240 + c / 262144, 128 + (c / 4096) % 64, 128 + (c / 64) % 64, 128 + c % 64]

/-- UTF-8 byte sequence of a string. -/
def strBytes (s : String) : List Nat := (s.toList.map fun c => utf8Bytes c.toNat).flatten

/-- HMAC-SHA256 (RFC 2104) over byte lists; block size 64. -/
def hmacSha256 (key msg : List Nat) : List Nat :=
  let k0 := if 64 < key.length then sha256Bytes key else key
  let kpad := k0 ++ List.replicate (64 - k0.length) 0
  let ipad := kpad.map fun b => b ^^^ 54
  let opad := kpad.map fun b => b ^^^ 92
  sha256Bytes (opad ++ sha256Bytes (ipad ++ msg))

/-- Models `crypto.createHmac('sha256', secret).update(body).digest('hex')`. -/
def hmacSha256Hex (key msg : String) : String :=
  bytesToHex (hmacSha256 (strBytes key) (strBytes msg))

/-! ## Request values

A field destructured from `req.body` is a JSON scalar, or `undefined` when
the request did not supply it. -/

/-- A value reaching a handler from `req.body`. -/
inductive JsVal
  | undef
  | str (s : String)
  | num (n : Int)
  deriving Repr, DecidableEq

/-- JS truthiness of a request value: `undefined`, `""` and `0` are falsy. -/
def JsVal.truthy : JsVal → Bool
  | .undef => false
  | .str s => s ≠ ""
  | .num n => n ≠ 0

/-- JS string conversion, as in `.toString()` and template literals:
`undefined` interpolates as the literal text "undefined". -/
def JsVal.toStr : JsVal → String
  | .undef => "undefined"
  | .str s => s
  | .num n => toString n

/-! ## The OTP store and utility functions -/

/-- One entry of `otpStorage`: `{ otp, timestamp, verified }`. -/
structure OTPSession where
  otp : String
  timestamp : Int
  verified : Bool
  deriving Repr, DecidableEq

/-- The in-memory `otpStorage` Map, keyed by the request-supplied email
value (JS Map keys use SameValueZero, so distinct `JsVal`s are distinct
keys). -/
def OtpStore : Type := JsVal → Option OTPSession

/-- A store with no sessions. -/
def OtpStore.empty : OtpStore := fun _ => none

/-- Models `otpStorage.get(k)`. -/
def OtpStore.get (s : OtpStore) (k : JsVal) : Option OTPSession := s k

/-- Models `otpStorage.set(k, v)`. -/
def OtpStore.set (s : OtpStore) (k : JsVal) (v : OTPSession) : OtpStore :=
  fun k' => if k' = k then some v else s k'

/-- Models `otpStorage.delete(k)`. -/
def OtpStore.del (s : OtpStore) (k : JsVal) : OtpStore :=
  fun k' => if k' = k then none else s k'

/-- Models `generateOTP()`: `Math.floor(100000 + Math.random() * 900000).toString()`;
`draw` stands for `Math.floor(Math.random() * 900000)`, a number in
`[0, 900000)`. -/
def generateOTP (draw : Nat) : String := toString (100000 + draw)

/-- Models `isOTPExpired(timestamp)`: `Date.now() - timestamp > 5 * 60 * 1000`. -/
def isOTPExpired (now timestamp : Int) : Bool := now - timestamp > 5 * 60 * 1000

/-- The regex class `\s` of ECMAScript (WhiteSpace and LineTerminator
code points). -/
def isJsSpace (c : Char) : Bool :=
  c == ' ' || c == '\t' || c == '\n' || c.toNat == 11 || c.toNat == 12 || c == '\r' ||
  c.toNat == 0xa0 || c.toNat == 0x1680 || (0x2000 ≤ c.toNat && c.toNat ≤ 0x200a) ||
  c.toNat == 0x2028 || c.toNat == 0x2029 || c.toNat == 0x202f || c.toNat == 0x205f ||
  c.toNat == 0x3000 || c.toNat == 0xfeff

/-- Models `isValidEmail(email)`, the test `/^[^\s@]+@[^\s@]+\.[^\s@]+$/.test(email)`.
A string matches exactly when it has no `\s` character, exactly one `@` which
is not the first character, and the part after the `@` contains a `.` with at
least one character on each side (the character classes allow further dots). -/
def isValidEmail (email : String) : Bool :=
  let cs := email.toList
  (cs.all fun c => !(isJsSpace c)) &&
  cs.count '@' == 1 &&
  decide (0 < cs.indexOf '@') &&
  (let domain := cs.drop (cs.indexOf '@' + 1)
   (List.range domain.length).any fun i =>
     domain.getD i '@' == '.' && decide (1 ≤ i) && decide (i + 2 ≤ domain.length))

/-! ## POST /api/send-otp -/

/-- The replies of the `/api/send-otp` handler, labelled by return site. -/
inductive SendOtpResult
  | invalidEmail
  | sentOk
  | deliveryFailure
  deriving Repr, DecidableEq

/-- HTTP status of each `/api/send-otp` reply. -/
def SendOtpResult.status : SendOtpResult → Nat
  | .invalidEmail => 400
  | .sentOk => 200
  | .deliveryFailure => 500

/-- Handler for POST /api/send-otp. `now` is `Date.now()`, `newOtp` the string
`generateOTP()` returned, and `emailOk` whether `transporter.sendMail`
resolves (`false` = it throws, landing in the catch block). Returns the reply
and the updated `otpStorage`. -/
def sendOtp (now : Int) (newOtp : String) (emailOk : Bool)
    (store : OtpStore) (email : JsVal) : SendOtpResult × OtpStore :=
  if !email.truthy || !isValidEmail email.toStr then (.invalidEmail, store)
  else
    let store1 := store.set email ⟨newOtp, now, false⟩
    if emailOk then (.sentOk, store1) else (.deliveryFailure, store1)

/-! ## POST /api/verify-otp -/

/-- The replies of the `/api/verify-otp` handler, labelled by return site. -/
inductive VerifyOtpResult
  | invalidInput
  | noSessionFound
  | expired
  | mismatch
  | verifiedOk
  deriving Repr, DecidableEq

/-- HTTP status of each `/api/verify-otp` reply. -/
def VerifyOtpResult.status : VerifyOtpResult → Nat
  | .invalidInput => 400
  | .noSessionFound => 400
  | .expired => 400
  | .mismatch => 400
  | .verifiedOk => 200

/-- Handler for POST /api/verify-otp: presence (truthiness) check, lookup,
expiry check with lazy deletion, strict string comparison, then rewrite of
the session with `verified: true` (object spread keeps `otp`/`timestamp`). -/
def verifyOtp (now : Int) (store : OtpStore) (email otp : JsVal) :
    VerifyOtpResult × OtpStore :=
  if !email.truthy || !otp.truthy then (.invalidInput, store)
  else
    match store.get email with
    | none => (.noSessionFound, store)
    | some otpData =>
      if isOTPExpired now otpData.timestamp then (.expired, store.del email)
      else if otpData.otp ≠ otp.toStr then (.mismatch, store)
      else (.verifiedOk, store.set email ⟨otpData.otp, otpData.timestamp, true⟩)

/-! ## POST /api/create-order -/

/-- The `options` object passed to `razorpay.orders.create`. -/
structure OrderOptions where
  amount : Nat
  currency : String
  receipt : String
  notesUserEmail : JsVal
  deriving Repr, DecidableEq

/-- The replies of the `/api/create-order` handler, labelled by return site;
`created` carries the collaborator's order object verbatim. -/
inductive CreateOrderResult (α : Type)
  | notVerified
  | created (order : α)
  | upstreamFailure
  deriving Repr, DecidableEq

/-- HTTP status of each `/api/create-order` reply. -/
def CreateOrderResult.status {α : Type} : CreateOrderResult α → Nat
  | .notVerified => 403
  | .created _ => 200
  | .upstreamFailure => 500

/-- Handler for POST /api/create-order. `rhex` stands for
`crypto.randomBytes(4).toString('hex')` and `ordersCreate` for the Razorpay
collaborator (`Except.error` = its promise rejects). Besides the reply it
returns the store (this handler never writes it) and the list of collaborator
calls made. -/
def createOrder {α : Type} (rhex : String)
    (ordersCreate : OrderOptions → Except Unit α)
    (store : OtpStore) (email : JsVal) :
    CreateOrderResult α × OtpStore × List OrderOptions :=
  match store.get email with
  | none => (.notVerified, store, [])
  | some otpData =>
    if !otpData.verified then (.notVerified, store, [])
    else
      let options : OrderOptions :=
        { amount := 150, currency := "INR",
          receipt := "receipt_order_" ++ rhex, notesUserEmail := email }
      match ordersCreate options with
      | .ok order => (.created order, store, [options])
      | .error _ => (.upstreamFailure, store, [options])

/-! ## POST /api/verify-payment -/

/-- One element of the `attachments` array. -/
structure Attachment where
  filename : String
  path : String
  deriving Repr, DecidableEq

/-- Models `s.padStart(targetLength, pad)` for a single pad character. -/
def padStart (targetLength : Nat) (pad : Char) (s : String) : String :=
  String.mk (List.replicate (targetLength - s.length) pad) ++ s

/-- The attachment array built by `for (let i = 1; i <= 11; i++)`:
`bazinga_${number}.jpg` with `number = i.toString().padStart(2, '0')`,
paths under `path.join(__dirname, 'files', ...)`. -/
def paymentAttachments (dirname : String) : List Attachment :=
  (List.range 11).map fun k =>
    let number := padStart 2 '0' (toString (k + 1))
    { filename := "bazinga_" ++ number ++ ".jpg",
      path := dirname ++ "/files/" ++ ("bazinga_" ++ number ++ ".jpg") }

/-- The mail the `/api/verify-payment` handler passes to
`transporter.sendMail` (recipient and attachments; sender, subject and html
body are fixed template text). -/
structure Mail where
  recipient : JsVal
  attachments : List Attachment
  deriving Repr, DecidableEq

/-- The replies of the `/api/verify-payment` handler, labelled by return
site. -/
inductive VerifyPaymentResult
  | sigMismatch
  | paidOk
  | deliveryFailure
  deriving Repr, DecidableEq

/-- HTTP status of each `/api/verify-payment` reply. -/
def VerifyPaymentResult.status : VerifyPaymentResult → Nat
  | .sigMismatch => 400
  | .paidOk => 200
  | .deliveryFailure => 500

/-- The `status` field of the JSON reply. -/
def VerifyPaymentResult.statusField : VerifyPaymentResult → String
  | .sigMismatch => "error"
  | .paidOk => "success"
  | .deliveryFailure => "error"

/-- The `message` field of the JSON reply. -/
def VerifyPaymentResult.message : VerifyPaymentResult → String
  | .sigMismatch => "Invalid payment signature."
  | .paidOk => "Payment successful and images sent!"
  | .deliveryFailure => "Payment verified, but email failed."

/-- Handler for POST /api/verify-payment. `secret` is
`process.env.RAZORPAY_KEY_SECRET`, `emailOk` whether `transporter.sendMail`
resolves, `dirname` is `__dirname`. The expected signature is the hex HMAC
over the template string `` `${razorpay_order_id}|${razorpay_payment_id}` ``;
on strict inequality the handler replies 400 without sending anything, else
it attempts the mail (returned as the third component) and on success deletes
the OTP session. -/
def verifyPayment (secret : String) (emailOk : Bool) (dirname : String)
    (store : OtpStore) (orderId paymentId sig email : JsVal) :
    VerifyPaymentResult × OtpStore × Option Mail :=
  let body := orderId.toStr ++ "|" ++ paymentId.toStr
  let expectedSignature := hmacSha256Hex secret body
  if sig ≠ JsVal.str expectedSignature then (.sigMismatch, store, none)
  else
    let mail : Mail := { recipient := email, attachments := paymentAttachments dirname }
    if emailOk then (.paidOk, store.del email, some mail)
    else (.deliveryFailure, store, some mail)

/-! ## Sanity checks of the hash embedding against published test vectors -/

set_option maxRecDepth 100000

/-- FIPS 180-4 test vector: SHA-256 of "abc". -/
theorem sha256_vector_abc :
    bytesToHex (sha256Bytes (strBytes "abc")) =
      "ba7816bf8f01cfea414140de5dae2223b00361a396177a9cb410ff61f20015ad" := by decide

/-- SHA-256 of the empty message. -/
theorem sha256_vector_empty :
    bytesToHex (sha256Bytes (strBytes "")) =
      "e3b0c44298fc1c149afbf4c8996fb92427ae41e4649b934ca495991b7852b855" := by decide

/-- The byte length of `beBytes k n` is `k`. -/
theorem beBytes_length (k n : Nat) : (beBytes k n).length = k := by
  induction k generalizing n with
  | zero => rfl
  | succ k ih => simp [beBytes, ih]

/-- A padded message is always a whole number of 64-byte blocks, also for
input lengths ≡ 56..63 mod 64 where the padding wraps into a second block. -/
theorem padMessage_length_mod (msg : List Nat) : (padMessage msg).length % 64 = 0 := by
  simp [padMessage, beBytes_length]
  omega

/-- SHA-256 of 56 repetitions of the byte 97 ("a"): a length in the padding
wrap regime (len % 64 in 56..63), where the padding must extend into a
second block. -/
theorem sha256_vector_wrap56 :
    bytesToHex (sha256Bytes (List.replicate 56 97)) =
      "b35439a4ac6f0948b6d6f9e3c6af0f5f590ce20f1bde7090ef7970686ec6738a" := by decide

/-- SHA-256 of 63 repetitions of the byte 98 ("b"), the top of the wrap
regime. -/
theorem sha256_vector_wrap63 :
    bytesToHex (sha256Bytes (List.replicate 63 98)) =
      "94e419fabac7f930810f9636354042f8c1426d2f834d4ab65c93dc1e69326b13" := by decide

/-- HMAC-SHA256 under key "s3cr3t" of a 56-byte body (inner hash input of
length 120 ≡ 56 mod 64, in the wrap regime). -/
theorem hmac_vector_wrap_body :
    bytesToHex (hmacSha256 (strBytes "s3cr3t") (List.replicate 56 97)) =
      "9267ca2b603f32e8755ddbf948694d8b3bcfe61d01a6d18500eaa30593ac6476" := by decide

/-- HMAC-SHA256 with a 120-byte key (over the block size and of wrap-regime
length), exercising the key pre-hash. -/
theorem hmac_vector_long_key :
    bytesToHex (hmacSha256 (List.replicate 120 107) (strBytes "hello")) =
      "a6041979e0dce76782cc5121f40cd51539105a977c71fd5ad33badf236957d3c" := by decide

/-- RFC 4231 test case 2 for HMAC-SHA256. -/
theorem hmac_vector_jefe :
    hmacSha256Hex "Jefe" "what do ya want for nothing?" =
      "5bdcc146bf60754e6a042426089575c75a003f089d2739839dec58b964ec3843" := by decide

/-- The accepted signature of the concrete instance in the spec: the hex
HMAC-SHA256 of "order_1|pay_1" under key "s3cr3t". -/
theorem hmac_order1_pay1 :
    hmacSha256Hex "s3cr3t" "order_1|pay_1" =
      "c4ba7785e595b717abd8b4847eaf30e97f23acbdbe1b8f5cbbf17d28d63b068f" := by decide

/-! ## Claim theorems -/

/-- C1: for every order identifier, payment identifier and claimed signature,
the payment verifier computes HMAC-SHA256 over the exact string
`orderId + "|" + paymentId` with the shared secret, hex-encodes the digest,
and proceeds to the deliverable-send step exactly when the claimed signature
equals that digest; any other claimed signature gets the SignatureMismatch
reply and no deliverables are sent. -/
theorem verify_payment_signature_iff (secret : String) (emailOk : Bool)
    (dirname : String) (store : OtpStore) (orderId paymentId sig email : JsVal) :
    ((verifyPayment secret emailOk dirname store orderId paymentId sig email).2.2.isSome = true
      ↔ sig = JsVal.str (hmacSha256Hex secret (orderId.toStr ++ "|" ++ paymentId.toStr)))
    ∧ ((verifyPayment secret emailOk dirname store orderId paymentId sig email).1 =
        VerifyPaymentResult.sigMismatch
      ↔ sig ≠ JsVal.str (hmacSha256Hex secret (orderId.toStr ++ "|" ++ paymentId.toStr))) := by
  unfold verifyPayment
  by_cases h : sig = JsVal.str (hmacSha256Hex secret (orderId.toStr ++ "|" ++ paymentId.toStr))
  · cases emailOk <;> simp [h]
  · simp [h]

/-- C9: the payment verifier has no input-validation branch: with the order
and payment identifiers missing it still computes the HMAC over the template
string "undefined|undefined" and compares it to the claimed signature, and
for any inputs the reply is one of SignatureMismatch, success, or
DeliveryFailure — there is no InvalidInput reply. -/
theorem verify_payment_no_validation (secret : String) (emailOk : Bool)
    (dirname : String) (store : OtpStore) (sig email : JsVal) :
    ((verifyPayment secret emailOk dirname store JsVal.undef JsVal.undef sig email).1 =
        VerifyPaymentResult.sigMismatch
      ↔ sig ≠ JsVal.str (hmacSha256Hex secret "undefined|undefined"))
    ∧ (∀ orderId paymentId : JsVal,
        (verifyPayment secret emailOk dirname store orderId paymentId sig email).1 =
          VerifyPaymentResult.sigMismatch ∨
        (verifyPayment secret emailOk dirname store orderId paymentId sig email).1 =
          VerifyPaymentResult.paidOk ∨
        (verifyPayment secret emailOk dirname store orderId paymentId sig email).1 =
          VerifyPaymentResult.deliveryFailure) := by
  constructor
  · have h9 : (JsVal.undef.toStr ++ "|" ++ JsVal.undef.toStr) = "undefined|undefined" := rfl
    unfold verifyPayment
    rw [h9]
    by_cases h : sig = JsVal.str (hmacSha256Hex secret "undefined|undefined")
    · cases emailOk <;> simp [h]
    · simp [h]
  · intro orderId paymentId
    unfold verifyPayment
    by_cases h : sig = JsVal.str (hmacSha256Hex secret (orderId.toStr ++ "|" ++ paymentId.toStr))
    · cases emailOk <;> simp [h]
    · simp [h]

/-- C2: with a matching signature the handler attempts a mail to the given
email whose attachments are exactly the 11 files bazinga_01.jpg through
bazinga_11.jpg (fixed prefix, 2-digit zero-padded index); if the send
succeeds the OTP session stored for that email is deleted and the success
acknowledgment returned; if it fails the reply is the 500 DeliveryFailure
whose message still reports the payment itself as verified. -/
theorem verify_payment_deliverables (secret : String) (emailOk : Bool)
    (dirname : String) (store : OtpStore) (orderId paymentId sig email : JsVal)
    (hsig : sig = JsVal.str (hmacSha256Hex secret (orderId.toStr ++ "|" ++ paymentId.toStr))) :
    ((verifyPayment secret emailOk dirname store orderId paymentId sig email).2.2 =
        some { recipient := email, attachments := paymentAttachments dirname })
    ∧ ((paymentAttachments dirname).map Attachment.filename =
        ["bazinga_01.jpg", "bazinga_02.jpg", "bazinga_03.jpg", "bazinga_04.jpg",
         "bazinga_05.jpg", "bazinga_06.jpg", "bazinga_07.jpg", "bazinga_08.jpg",
         "bazinga_09.jpg", "bazinga_10.jpg", "bazinga_11.jpg"])
    ∧ (emailOk = true →
        verifyPayment secret emailOk dirname store orderId paymentId sig email =
          (VerifyPaymentResult.paidOk, store.del email,
           some { recipient := email, attachments := paymentAttachments dirname }))
    ∧ (emailOk = false →
        (verifyPayment secret emailOk dirname store orderId paymentId sig email).1 =
          VerifyPaymentResult.deliveryFailure
        ∧ VerifyPaymentResult.message VerifyPaymentResult.deliveryFailure =
            "Payment verified, but email failed."
        ∧ VerifyPaymentResult.status VerifyPaymentResult.deliveryFailure = 500) := by
  subst hsig
  refine ⟨?_, rfl, ?_, ?_⟩
  · unfold verifyPayment
    cases emailOk <;> simp
  · intro h
    subst h
    unfold verifyPayment
    simp
  · intro h
    subst h
    refine ⟨?_, rfl, rfl⟩
    unfold verifyPayment
    simp

/-- Witness for C2: the concrete instance of the spec, with the send
succeeding. -/
theorem verify_payment_deliverables_witness :
    verifyPayment "s3cr3t" true "/backend" OtpStore.empty (JsVal.str "order_1")
        (JsVal.str "pay_1") (JsVal.str (hmacSha256Hex "s3cr3t" "order_1|pay_1"))
        (JsVal.str "a@b.com") =
      (VerifyPaymentResult.paidOk, OtpStore.empty.del (JsVal.str "a@b.com"),
       some { recipient := JsVal.str "a@b.com", attachments := paymentAttachments "/backend" }) :=
  (verify_payment_deliverables "s3cr3t" true "/backend" OtpStore.empty
      (JsVal.str "order_1") (JsVal.str "pay_1")
      (JsVal.str (hmacSha256Hex "s3cr3t" "order_1|pay_1"))
      (JsVal.str "a@b.com") rfl).2.2.1 rfl

/-- C3, as stated, is false at the boundary: an attempt made exactly 5 minutes
(300000 ms ≥ 5 min) after issuance does not fail Expired — the strict
comparison in the code accepts the correct code. -/
theorem verify_otp_boundary_counterexample :
    (300000 : Int) - 0 ≥ 5 * 60 * 1000 ∧
    (verifyOtp 300000 (OtpStore.empty.set (JsVal.str "a@b.com") ⟨"123456", 0, false⟩)
        (JsVal.str "a@b.com") (JsVal.str "123456")).1 = VerifyOtpResult.verifiedOk := by
  decide

/-- C3 amended: an attempt made strictly more than 5 minutes after issuance
(now − issuedAt > 5 minutes, the code comparison) fails with Expired and
deletes the session, and any subsequent attempt for that email — with any
truthy submitted code, in particular the remembered correct one — fails with
NoSessionFound. -/
theorem verify_otp_expired_deletes (now now2 : Int) (store : OtpStore)
    (email otp otp2 : JsVal) (s : OTPSession)
    (hemail : email.truthy = true) (hotp : otp.truthy = true)
    (hget : store.get email = some s)
    (hexp : now - s.timestamp > 5 * 60 * 1000)
    (hotp2 : otp2.truthy = true) :
    verifyOtp now store email otp = (VerifyOtpResult.expired, store.del email) ∧
    verifyOtp now2 (store.del email) email otp2 =
      (VerifyOtpResult.noSessionFound, store.del email) := by
  have hex : isOTPExpired now s.timestamp = true := by
    simp only [isOTPExpired, decide_eq_true_eq]
    omega
  have hnone : (store.del email).get email = none := by
    simp [OtpStore.get, OtpStore.del]
  constructor
  · unfold verifyOtp
    simp [hemail, hotp, hget, hex]
  · unfold verifyOtp
    simp [hemail, hotp2, hnone]

/-- Witness for the amended C3 at a concrete expired session. -/
theorem verify_otp_expired_deletes_witness :
    verifyOtp 300001 (OtpStore.empty.set (JsVal.str "a@b.com") ⟨"123456", 0, false⟩)
        (JsVal.str "a@b.com") (JsVal.str "123456") =
      (VerifyOtpResult.expired,
       (OtpStore.empty.set (JsVal.str "a@b.com") ⟨"123456", 0, false⟩).del (JsVal.str "a@b.com")) ∧
    verifyOtp 300002
        ((OtpStore.empty.set (JsVal.str "a@b.com") ⟨"123456", 0, false⟩).del (JsVal.str "a@b.com"))
        (JsVal.str "a@b.com") (JsVal.str "123456") =
      (VerifyOtpResult.noSessionFound,
       (OtpStore.empty.set (JsVal.str "a@b.com") ⟨"123456", 0, false⟩).del (JsVal.str "a@b.com")) :=
  verify_otp_expired_deletes 300001 300002
    (OtpStore.empty.set (JsVal.str "a@b.com") ⟨"123456", 0, false⟩)
    (JsVal.str "a@b.com") (JsVal.str "123456") (JsVal.str "123456") ⟨"123456", 0, false⟩
    (by decide) (by decide) (by decide) (by decide) (by decide)

/-- C4: with a non-expired stored session, a submitted code whose string form
differs from the stored code gets the Mismatch reply and the store is
returned entirely unchanged, so a following attempt with the correct stored
code within the expiry window still succeeds. -/
theorem verify_otp_mismatch_keeps_session (now now2 : Int) (store : OtpStore)
    (email otp : JsVal) (s : OTPSession)
    (hemail : email.truthy = true) (hotp : otp.truthy = true)
    (hget : store.get email = some s)
    (hfresh : now - s.timestamp ≤ 5 * 60 * 1000)
    (hne : s.otp ≠ otp.toStr)
    (hcode : s.otp ≠ "")
    (hfresh2 : now2 - s.timestamp ≤ 5 * 60 * 1000) :
    verifyOtp now store email otp = (VerifyOtpResult.mismatch, store) ∧
    verifyOtp now2 store email (JsVal.str s.otp) =
      (VerifyOtpResult.verifiedOk, store.set email ⟨s.otp, s.timestamp, true⟩) := by
  have hex : isOTPExpired now s.timestamp = false := by
    simp only [isOTPExpired, decide_eq_false_iff_not]
    omega
  have hex2 : isOTPExpired now2 s.timestamp = false := by
    simp only [isOTPExpired, decide_eq_false_iff_not]
    omega
  have hst : (JsVal.str s.otp).truthy = true := by
    simp [JsVal.truthy, hcode]
  have hts : (JsVal.str s.otp).toStr = s.otp := rfl
  constructor
  · unfold verifyOtp
    simp [hemail, hotp, hget, hex, hne]
  · unfold verifyOtp
    simp [hemail, hst, hget, hex2, hts]

/-- Witness for C4 at a concrete session and wrong code. -/
theorem verify_otp_mismatch_keeps_session_witness :
    verifyOtp 1000 (OtpStore.empty.set (JsVal.str "a@b.com") ⟨"123456", 0, false⟩)
        (JsVal.str "a@b.com") (JsVal.str "999999") =
      (VerifyOtpResult.mismatch, OtpStore.empty.set (JsVal.str "a@b.com") ⟨"123456", 0, false⟩) ∧
    verifyOtp 2000 (OtpStore.empty.set (JsVal.str "a@b.com") ⟨"123456", 0, false⟩)
        (JsVal.str "a@b.com") (JsVal.str "123456") =
      (VerifyOtpResult.verifiedOk,
       (OtpStore.empty.set (JsVal.str "a@b.com") ⟨"123456", 0, false⟩).set
         (JsVal.str "a@b.com") ⟨"123456", 0, true⟩) :=
  verify_otp_mismatch_keeps_session 1000 2000
    (OtpStore.empty.set (JsVal.str "a@b.com") ⟨"123456", 0, false⟩)
    (JsVal.str "a@b.com") (JsVal.str "999999") ⟨"123456", 0, false⟩
    (by decide) (by decide) (by decide) (by decide) (by decide) (by decide) (by decide)

/-- C5, as stated, is false in one circumstance: the fresh code is drawn at
random, and the draw 23456 regenerates the very code "123456" already stored,
after which the old code still verifies — against "the old code no longer
verifies". -/
theorem send_otp_reissue_counterexample :
    23456 < 900000 ∧ generateOTP 23456 = "123456" ∧
    (sendOtp 1000 (generateOTP 23456) true
        (OtpStore.empty.set (JsVal.str "a@b.com") ⟨"123456", 0, true⟩)
        (JsVal.str "a@b.com")).1 = SendOtpResult.sentOk ∧
    (verifyOtp 2000
        (sendOtp 1000 (generateOTP 23456) true
          (OtpStore.empty.set (JsVal.str "a@b.com") ⟨"123456", 0, true⟩)
          (JsVal.str "a@b.com")).2
        (JsVal.str "a@b.com") (JsVal.str "123456")).1 = VerifyOtpResult.verifiedOk := by
  decide

/-- C5 amended: re-issuing an OTP for an email that already has a session
(verified or not) overwrites that session entirely — afterwards the store
maps the email to the fresh session (the generated code, issuedAt = now,
verified reset to false), every other key is unchanged (so at most one
session per email persists), and the old code no longer verifies provided
the freshly generated code differs from it. -/
theorem send_otp_overwrites (now now2 : Int) (draw : Nat) (emailOk : Bool)
    (store : OtpStore) (email : JsVal) (s : OTPSession)
    (hemail : email.truthy = true) (hvalid : isValidEmail email.toStr = true)
    (hget : store.get email = some s) :
    (sendOtp now (generateOTP draw) emailOk store email).2 =
      store.set email ⟨generateOTP draw, now, false⟩ ∧
    ((sendOtp now (generateOTP draw) emailOk store email).2).get email =
      some ⟨generateOTP draw, now, false⟩ ∧
    (∀ k, k ≠ email →
      ((sendOtp now (generateOTP draw) emailOk store email).2).get k = store.get k) ∧
    (generateOTP draw ≠ s.otp → s.otp ≠ "" → now2 - now ≤ 5 * 60 * 1000 →
      verifyOtp now2 (sendOtp now (generateOTP draw) emailOk store email).2 email
          (JsVal.str s.otp) =
        (VerifyOtpResult.mismatch, (sendOtp now (generateOTP draw) emailOk store email).2)) := by
  have hstore : (sendOtp now (generateOTP draw) emailOk store email).2 =
      store.set email ⟨generateOTP draw, now, false⟩ := by
    unfold sendOtp
    cases emailOk <;> simp [hemail, hvalid]
  refine ⟨hstore, ?_, ?_, ?_⟩
  · rw [hstore]
    simp [OtpStore.get, OtpStore.set]
  · intro k hk
    rw [hstore]
    simp [OtpStore.get, OtpStore.set, hk]
  · intro hne hcode hfresh
    have hget2 : ((sendOtp now (generateOTP draw) emailOk store email).2).get email =
        some ⟨generateOTP draw, now, false⟩ := by
      rw [hstore]
      simp [OtpStore.get, OtpStore.set]
    have hex : isOTPExpired now2 now = false := by
      simp only [isOTPExpired, decide_eq_false_iff_not]
      omega
    have hst : (JsVal.str s.otp).truthy = true := by
      simp [JsVal.truthy, hcode]
    have hts : (JsVal.str s.otp).toStr = s.otp := rfl
    unfold verifyOtp
    simp [hemail, hget2, hex, hst, hts, hne]

/-- Witness for the amended C5: a verified session is overwritten by a fresh
draw with a different code. -/
theorem send_otp_overwrites_witness :
    (sendOtp 1000 (generateOTP 0) true
        (OtpStore.empty.set (JsVal.str "a@b.com") ⟨"123456", 0, true⟩)
        (JsVal.str "a@b.com")).2 =
      (OtpStore.empty.set (JsVal.str "a@b.com") ⟨"123456", 0, true⟩).set
        (JsVal.str "a@b.com") ⟨generateOTP 0, 1000, false⟩ ∧
    ((sendOtp 1000 (generateOTP 0) true
        (OtpStore.empty.set (JsVal.str "a@b.com") ⟨"123456", 0, true⟩)
        (JsVal.str "a@b.com")).2).get (JsVal.str "a@b.com") =
      some ⟨generateOTP 0, 1000, false⟩ ∧
    (∀ k, k ≠ JsVal.str "a@b.com" →
      ((sendOtp 1000 (generateOTP 0) true
          (OtpStore.empty.set (JsVal.str "a@b.com") ⟨"123456", 0, true⟩)
          (JsVal.str "a@b.com")).2).get k =
        (OtpStore.empty.set (JsVal.str "a@b.com") ⟨"123456", 0, true⟩).get k) ∧
    (generateOTP 0 ≠ "123456" → "123456" ≠ "" → (2000 : Int) - 1000 ≤ 5 * 60 * 1000 →
      verifyOtp 2000
          (sendOtp 1000 (generateOTP 0) true
            (OtpStore.empty.set (JsVal.str "a@b.com") ⟨"123456", 0, true⟩)
            (JsVal.str "a@b.com")).2 (JsVal.str "a@b.com") (JsVal.str "123456") =
        (VerifyOtpResult.mismatch,
         (sendOtp 1000 (generateOTP 0) true
            (OtpStore.empty.set (JsVal.str "a@b.com") ⟨"123456", 0, true⟩)
            (JsVal.str "a@b.com")).2)) :=
  send_otp_overwrites 1000 2000 0 true
    (OtpStore.empty.set (JsVal.str "a@b.com") ⟨"123456", 0, true⟩)
    (JsVal.str "a@b.com") ⟨"123456", 0, true⟩
    (by decide) (by decide) (by decide)

/-- C6: create-order replies NotVerified (403) for an email with no session or
an unverified one and then makes no collaborator call; with a verified
session it calls the collaborator exactly once with the fixed options
(amount 150, currency INR, random receipt, the email in the notes), returns
its order verbatim on success and UpstreamFailure on failure; in every case
the store is returned unchanged, so the verified session survives an
upstream failure and the client may retry without re-verifying. -/
theorem create_order_gate {α : Type} (rhex : String)
    (ordersCreate : OrderOptions → Except Unit α) (store : OtpStore) (email : JsVal) :
    (store.get email = none →
      createOrder rhex ordersCreate store email = (CreateOrderResult.notVerified, store, []))
    ∧ (∀ s : OTPSession, store.get email = some s → s.verified = false →
        createOrder rhex ordersCreate store email = (CreateOrderResult.notVerified, store, []))
    ∧ (∀ s : OTPSession, store.get email = some s → s.verified = true →
        ((createOrder rhex ordersCreate store email).2.2 =
          [{ amount := 150, currency := "INR", receipt := "receipt_order_" ++ rhex, notesUserEmail := email }])
        ∧ (∀ o : α, ordersCreate { amount := 150, currency := "INR", receipt := "receipt_order_" ++ rhex, notesUserEmail := email } = Except.ok o →
            createOrder rhex ordersCreate store email =
              (CreateOrderResult.created o, store,
               [{ amount := 150, currency := "INR", receipt := "receipt_order_" ++ rhex, notesUserEmail := email }]))
        ∧ (∀ e : Unit, ordersCreate { amount := 150, currency := "INR", receipt := "receipt_order_" ++ rhex, notesUserEmail := email } = Except.error e →
            createOrder rhex ordersCreate store email =
              (CreateOrderResult.upstreamFailure, store,
               [{ amount := 150, currency := "INR", receipt := "receipt_order_" ++ rhex, notesUserEmail := email }])))
    ∧ (createOrder rhex ordersCreate store email).2.1 = store := by
  refine ⟨?_, ?_, ?_, ?_⟩
  · intro hnone
    unfold createOrder
    simp [hnone]
  · intro s hs hv
    unfold createOrder
    simp [hs, hv]
  · intro s hs hv
    refine ⟨?_, ?_, ?_⟩
    · unfold createOrder
      simp only [hs, hv]
      cases h : ordersCreate { amount := 150, currency := "INR", receipt := "receipt_order_" ++ rhex, notesUserEmail := email } <;> simp [h]
    · intro o ho
      unfold createOrder
      simp [hs, hv, ho]
    · intro e he
      unfold createOrder
      simp [hs, hv, he]
  · unfold createOrder
    cases h : store.get email with
    | none => simp
    | some s =>
      cases hb : s.verified
      · simp [hb]
      · simp only [hb]
        cases h2 : ordersCreate { amount := 150, currency := "INR", receipt := "receipt_order_" ++ rhex, notesUserEmail := email } <;> simp [h2]

/-- C7: when issuance fails because the mail dispatch throws, the store write
already performed is not rolled back: the reply is the 500 DeliveryFailure
and the store still holds the fresh session (new code, issuedAt = now,
verified = false). -/
theorem send_otp_no_rollback (now : Int) (draw : Nat) (store : OtpStore) (email : JsVal)
    (hemail : email.truthy = true) (hvalid : isValidEmail email.toStr = true) :
    sendOtp now (generateOTP draw) false store email =
      (SendOtpResult.deliveryFailure, store.set email ⟨generateOTP draw, now, false⟩) ∧
    ((sendOtp now (generateOTP draw) false store email).2).get email =
      some ⟨generateOTP draw, now, false⟩ := by
  have h : sendOtp now (generateOTP draw) false store email =
      (SendOtpResult.deliveryFailure, store.set email ⟨generateOTP draw, now, false⟩) := by
    unfold sendOtp
    simp [hemail, hvalid]
  refine ⟨h, ?_⟩
  rw [h]
  simp [OtpStore.get, OtpStore.set]

/-- Witness for C7 at a concrete valid email. -/
theorem send_otp_no_rollback_witness :
    sendOtp 1000 (generateOTP 0) false OtpStore.empty (JsVal.str "a@b.com") =
      (SendOtpResult.deliveryFailure,
       OtpStore.empty.set (JsVal.str "a@b.com") ⟨generateOTP 0, 1000, false⟩) ∧
    ((sendOtp 1000 (generateOTP 0) false OtpStore.empty (JsVal.str "a@b.com")).2).get
        (JsVal.str "a@b.com") = some ⟨generateOTP 0, 1000, false⟩ :=
  send_otp_no_rollback 1000 0 OtpStore.empty (JsVal.str "a@b.com") (by decide) (by decide)

/-- C8: a successful verification writes back the very session with only the
verified flag turned true — the stored code and issuedAt are preserved. -/
theorem verify_otp_success_frame (now : Int) (store : OtpStore) (email otp : JsVal)
    (s : OTPSession)
    (hemail : email.truthy = true) (hotp : otp.truthy = true)
    (hget : store.get email = some s)
    (hfresh : now - s.timestamp ≤ 5 * 60 * 1000)
    (heq : s.otp = otp.toStr) :
    verifyOtp now store email otp =
      (VerifyOtpResult.verifiedOk,
       store.set email { otp := s.otp, timestamp := s.timestamp, verified := true }) := by
  have hex : isOTPExpired now s.timestamp = false := by
    simp only [isOTPExpired, decide_eq_false_iff_not]
    omega
  unfold verifyOtp
  simp [hemail, hotp, hget, hex, heq]

/-- Witness for C8 at a concrete session and matching code. -/
theorem verify_otp_success_frame_witness :
    verifyOtp 1000 (OtpStore.empty.set (JsVal.str "a@b.com") ⟨"123456", 0, false⟩)
        (JsVal.str "a@b.com") (JsVal.str "123456") =
      (VerifyOtpResult.verifiedOk,
       (OtpStore.empty.set (JsVal.str "a@b.com") ⟨"123456", 0, false⟩).set
         (JsVal.str "a@b.com") { otp := "123456", timestamp := 0, verified := true }) :=
  verify_otp_success_frame 1000
    (OtpStore.empty.set (JsVal.str "a@b.com") ⟨"123456", 0, false⟩)
    (JsVal.str "a@b.com") (JsVal.str "123456") ⟨"123456", 0, false⟩
    (by decide) (by decide) (by decide) (by decide) (by decide)

/-- C10: presence of the submitted OTP is a truthiness check, so the numeric
code 0 and the empty string are treated as missing: the reply is the 400
InvalidInput and the store is untouched, whatever session exists for the
email — the lookup and match checks are never reached. -/
theorem verify_otp_falsy_otp (now : Int) (store : OtpStore) (email : JsVal) :
    JsVal.truthy (JsVal.num 0) = false ∧
    JsVal.truthy (JsVal.str "") = false ∧
    verifyOtp now store email (JsVal.num 0) = (VerifyOtpResult.invalidInput, store) ∧
    verifyOtp now store email (JsVal.str "") = (VerifyOtpResult.invalidInput, store) := by
  refine ⟨rfl, by decide, ?_, ?_⟩ <;> simp [verifyOtp, JsVal.truthy]

end Bazinga
